import Mathlib

/-!
Shallow embedding of the BoxModel notebook (a zero-dimensional subglacial
plume model).  Real-valued scalars of the Python/numpy code are modelled by
`ℝ`; `np.sqrt` by `Real.sqrt`; the NaN-capable preallocated numpy arrays by
`List (Option ℝ)` where `none` stands for the `np.nan` sentinel; the
string-keyed result dictionaries by a key enumeration `Quantity` (for the
box-model results) and a record `BMelt` (for `basalmelting`).
-/

namespace BoxModel

/- Empirical constants for the freezing temperature equation (notebook
   constants cell): y1 = -5.73e-2, y2 = 8.32e-2, y3 = 7.61e-4. -/
noncomputable def y1 : ℝ := -573 / 10000

noncomputable def y2 : ℝ := 832 / 10000

noncomputable def y3 : ℝ := 761 / 1000000

/-- Specific heat capacity ice (2009). -/
def c_i : ℝ := 2009

/-- Specific heat capacity ocean water (3974). -/
def c_p : ℝ := 3974

/-- Latent heat of fusion (3.34e5). -/
def L : ℝ := 334000

/-- Stranton number temperature (1.1e-3). -/
noncomputable def St_T : ℝ := 11 / 10000

/-- Stranton number salinity (3.1e-5). -/
noncomputable def St_S : ℝ := 31 / 1000000

/-- Entrainment coefficient (3.6e-2). -/
noncomputable def E_0 : ℝ := 36 / 1000

/-- Temperature glacier ice. -/
def T_i : ℝ := -20

/-- Plume height. -/
def h : ℝ := 10

/-- Plume length. -/
def l : ℝ := 80000

/-- Plume width. -/
def w : ℝ := 20000

/-- Grounding line depth. -/
def z_g : ℝ := -600

/-- Plume velocity (0.2). -/
noncomputable def u : ℝ := 2 / 10

/-- Plume area between plume and ice or plume and ambient water. -/
noncomputable def A : ℝ := w * l

/-- Plume volume. -/
noncomputable def V : ℝ := A * h

/-- Sine of the plume's slope: `np.sin(np.arctan(abs(z_g) / l))`. -/
noncomputable def sin_alpha : ℝ := Real.sin (Real.arctan (|z_g| / l))

/-- Temperature exchange velocity. -/
noncomputable def gamma_T : ℝ := St_T * u

/-- Salinity exchange velocity. -/
noncomputable def gamma_S : ℝ := St_S * u

/-- From seconds to years: 3600 * 24 * 365. -/
def s_yr : ℝ := 3600 * 24 * 365

/-- Freezing temperature: `T = y1 * S + y2 + y3 * z_b`. -/
noncomputable def freeze (S z_b : ℝ) : ℝ := y1 * S + y2 + y3 * z_b

/-- Salinity of subglacial discharge (freshwater). -/
def S_g : ℝ := 0

/-- Potential discharge temperature: `freeze(S_g, z_g)`. -/
noncomputable def T_g : ℝ := freeze S_g z_g

/-- Entrainment velocity: `E_0 * u * sin_alpha`. -/
noncomputable def v_e : ℝ := E_0 * u * sin_alpha

/-- Entrainment transport: `v_e * A`. -/
noncomputable def Q_a : ℝ := v_e * A

/-- Timestep. -/
def dt : ℝ := 10000

/-- Number of iterations. -/
def N : ℕ := 200

/- The local coefficients `a`, `b`, `c` computed inside `basalmelting`,
   hoisted to named definitions so the quadratic can be talked about. -/

/-- `a = y1 * (gamma_T - gamma_S * c_i/c_p)` of `basalmelting`. -/
noncomputable def bm_a : ℝ := y1 * (gamma_T - gamma_S * c_i / c_p)

/-- `b = gamma_T * (y2 + y3*z_b - T) + gamma_S/c_p * (c_i*(y1*S - y2 - y3*z_b + T_i) - L)`
of `basalmelting`. -/
noncomputable def bm_b (S T z_b : ℝ) : ℝ :=
  gamma_T * (y2 + y3 * z_b - T) + gamma_S / c_p * (c_i * (y1 * S - y2 - y3 * z_b + T_i) - L)

/-- `c = (gamma_S * S) / c_p * (c_i * (y3 * z_b - T_i) + L)` of `basalmelting`. -/
noncomputable def bm_c (S z_b : ℝ) : ℝ :=
  (gamma_S * S) / c_p * (c_i * (y3 * z_b - T_i) + L)

/-- The discriminant `b ** 2 - 4 * a * c` under the square root in `basalmelting`. -/
noncomputable def disc (S T z_b : ℝ) : ℝ :=
  bm_b S T z_b ^ 2 - 4 * bm_a * bm_c S z_b

/-- The dictionary returned by `basalmelting`. -/
structure BMelt where
  S_b : ℝ
  T_b : ℝ
  v_b : ℝ

/-- The `basalmelting` function: solves the three-equation closure by the
quadratic formula and returns boundary salinity, boundary temperature and
melt rate (scaled to m/y by `s_yr`). -/
noncomputable def basalmelting (S T z_b : ℝ) : BMelt :=
  let a := bm_a
  let b := bm_b S T z_b
  let c := bm_c S z_b
  let S_b := -(b + Real.sqrt (b ^ 2 - 4 * a * c)) / (2 * a)
  let T_b := y1 * S_b + y2 + y3 * z_b
  let v_b := gamma_S * (S - S_b) / S_b
  { S_b := S_b, T_b := T_b, v_b := v_b * s_yr }

/-- The keys of the dictionaries returned by `boxmodel` and `sens_study`:
"v_b", "S", "T", "S_b", "T_b", "Q_m", "Q_out". -/
inductive Quantity where
  | v_b
  | S
  | T
  | S_b
  | T_b
  | Q_m
  | Q_out
deriving DecidableEq

/-- The local variables computed by one iteration of the loop body shared by
`boxmodel` and `sens_study`: the raw (unscaled) melt velocity `v_b`, the
updated plume salinity `S` and temperature `T`, the boundary values `S_b`,
`T_b`, the melt transport `Q_m` and the outflow `Q_out` (the loop's `Q`). -/
structure IterVals where
  v_b : ℝ
  S : ℝ
  T : ℝ
  S_b : ℝ
  T_b : ℝ
  Q_m : ℝ
  Q_out : ℝ

/-- One iteration of the loop body shared by `boxmodel` and `sens_study`,
starting from the pre-update plume state `(S, T)`. -/
noncomputable def plumeStep (S_a T_a Q_g z_b S T : ℝ) : IterVals :=
  let bmelt := basalmelting S T z_b
  let S_b := bmelt.S_b
  let T_b := bmelt.T_b
  let v_b := gamma_S * (S - S_b) / S_b
  let Q_m := v_b * A
  let Q := -(Q_g + Q_m + Q_a)
  let S' := (Q_a * S_a + V / dt * S) / (V / dt - Q)
  let T' := (Q_a * T_a + Q_g * T_g + (Q_m + A * gamma_T) * T_b + V / dt * T) /
      (V / dt - Q + A * gamma_T)
  { v_b := v_b, S := S', T := T', S_b := S_b, T_b := T_b, Q_m := Q_m, Q_out := Q }

/-- The plume state `(S, T)` after `i` iterations of the shared loop body,
starting from the common initial state `S = 30`, `T = freeze 30 z_b`. -/
noncomputable def plumeState (S_a T_a Q_g z_b : ℝ) : ℕ → ℝ × ℝ
  | 0 => (30, freeze 30 z_b)
  | i + 1 =>
    let st := plumeState S_a T_a Q_g z_b i
    let r := plumeStep S_a T_a Q_g z_b st.1 st.2
    (r.S, r.T)

/-- The values computed during iteration `i` (0-based) of the shared loop body. -/
noncomputable def iterVals (S_a T_a Q_g z_b : ℝ) (i : ℕ) : IterVals :=
  let st := plumeState S_a T_a Q_g z_b i
  plumeStep S_a T_a Q_g z_b st.1 st.2

/-- Raw selection of a loop-body value by dictionary key (no `s_yr` scaling). -/
def IterVals.select (r : IterVals) : Quantity → ℝ
  | .v_b => r.v_b
  | .S => r.S
  | .T => r.T
  | .S_b => r.S_b
  | .T_b => r.T_b
  | .Q_m => r.Q_m
  | .Q_out => r.Q_out

/-- Selection of a loop-body value as returned to the caller: both `boxmodel`
and `sens_study` scale `v_b` by `s_yr` in their returned dictionaries. -/
noncomputable def IterVals.final (r : IterVals) : Quantity → ℝ
  | .v_b => r.v_b * s_yr
  | q => r.select q

/-- The `sens_study` function: runs the `N`-iteration loop and returns only the
values of the last iteration, as the dictionary
`{v_b: v_b * s_yr, S: S, T: T, S_b: S_b, T_b: T_b, Q_m: Q_m, Q_out: Q}`
(the dictionary is modelled as a function on keys).  `N = 200 ≥ 1`, so the
last iteration of `for i in range(N)` is iteration `N - 1`. -/
noncomputable def sens_study (S_a T_a Q_g z_b : ℝ) : Quantity → ℝ :=
  fun q =>
    let r := iterVals S_a T_a Q_g z_b (N - 1)
    match q with
    | .v_b => r.v_b * s_yr
    | .S => r.S
    | .T => r.T
    | .S_b => r.S_b
    | .T_b => r.T_b
    | .Q_m => r.Q_m
    | .Q_out => r.Q_out

/-- The seven preallocated arrays of `boxmodel` (`np.full(N, np.nan)`); an
entry `none` is the `np.nan` the array was filled with at allocation. -/
structure BoxArrays where
  v_b_n : List (Option ℝ)
  S_n : List (Option ℝ)
  T_n : List (Option ℝ)
  S_b_n : List (Option ℝ)
  T_b_n : List (Option ℝ)
  Q_m_n : List (Option ℝ)
  Q_out_n : List (Option ℝ)

/-- The arrays as allocated: seven copies of `np.full(N, np.nan)`. -/
def initArrays : BoxArrays :=
  { v_b_n := List.replicate N none
    S_n := List.replicate N none
    T_n := List.replicate N none
    S_b_n := List.replicate N none
    T_b_n := List.replicate N none
    Q_m_n := List.replicate N none
    Q_out_n := List.replicate N none }

/-- The array-filling block at the end of iteration `i` of `boxmodel`'s loop:
`v_b_n[i] = v_b; S_n[i] = S; T_n[i] = T; S_b_n[i] = S_b; T_b_n[i] = T_b;
Q_m_n[i] = Q_m; Q_out_n[i] = Q`. -/
def writeArrays (arrs : BoxArrays) (i : ℕ) (r : IterVals) : BoxArrays :=
  { v_b_n := arrs.v_b_n.set i (some r.v_b)
    S_n := arrs.S_n.set i (some r.S)
    T_n := arrs.T_n.set i (some r.T)
    S_b_n := arrs.S_b_n.set i (some r.S_b)
    T_b_n := arrs.T_b_n.set i (some r.T_b)
    Q_m_n := arrs.Q_m_n.set i (some r.Q_m)
    Q_out_n := arrs.Q_out_n.set i (some r.Q_out) }

/-- The state carried across `boxmodel`'s loop: the arrays plus the current
plume salinity and temperature. -/
structure LoopState where
  arrs : BoxArrays
  S : ℝ
  T : ℝ

/-- `boxmodel`'s loop after `j` iterations: starts from the freshly allocated
arrays and plume state `S = 30`, `T = freeze(30, z_b)`; iteration `j` computes
the loop body at the current state, writes its values at index `j`, and keeps
the updated plume state. -/
noncomputable def boxLoop (S_a T_a Q_g z_b : ℝ) : ℕ → LoopState
  | 0 => { arrs := initArrays, S := 30, T := freeze 30 z_b }
  | j + 1 =>
    let p := boxLoop S_a T_a Q_g z_b j
    let r := plumeStep S_a T_a Q_g z_b p.S p.T
    { arrs := writeArrays p.arrs j r, S := r.S, T := r.T }

/-- Selection of one of the seven arrays by dictionary key. -/
def BoxArrays.sel (arrs : BoxArrays) : Quantity → List (Option ℝ)
  | .v_b => arrs.v_b_n
  | .S => arrs.S_n
  | .T => arrs.T_n
  | .S_b => arrs.S_b_n
  | .T_b => arrs.T_b_n
  | .Q_m => arrs.Q_m_n
  | .Q_out => arrs.Q_out_n

/-- The `boxmodel` function: runs the loop for exactly `N` iterations and
returns the dictionary `{v_b: v_b_n * s_yr, S: S_n, T: T_n, S_b: S_b_n,
T_b: T_b_n, Q_m: Q_m_n, Q_out: Q_out_n}` (elementwise `* s_yr` on the `v_b`
array; numpy's `nan * s_yr = nan` is `Option.map`). -/
noncomputable def boxmodel (S_a T_a Q_g z_b : ℝ) : Quantity → List (Option ℝ) :=
  fun q =>
    let arrs := (boxLoop S_a T_a Q_g z_b N).arrs
    match q with
    | .v_b => arrs.v_b_n.map (Option.map (fun x => x * s_yr))
    | .S => arrs.S_n
    | .T => arrs.T_n
    | .S_b => arrs.S_b_n
    | .T_b => arrs.T_b_n
    | .Q_m => arrs.Q_m_n
    | .Q_out => arrs.Q_out_n

/-- The `variation` function: a 2D parameter sweep over an `X`-by-`X` grid of
ambient salinity/temperature, calling `sens_study` at each admissible grid
point and writing the `np.nan` no-data sentinel (modelled by `none`) where the
sampled temperature is below the local freezing line; the filled bitmap is
returned transposed (`colormap.transpose()`). -/
noncomputable def variation (S_bot S_top T_bot T_top Q_g z_b : ℝ) (q : Quantity)
    (X : ℕ) : Matrix (Fin X) (Fin X) (Option ℝ) :=
  (Matrix.of fun i k : Fin X =>
    let salt := S_bot + (i.val : ℝ) * (S_top - S_bot) / X
    let temp := T_bot + (k.val : ℝ) * (T_top - T_bot) / X
    if y1 * salt + y2 + y3 * z_b ≤ temp then
      some (sens_study salt temp Q_g z_b q)
    else none).transpose

/-- Interpretation of the spec's "physically valid input domain" for the
ambient state fed to `basalmelting`: positive salinity and a plume depth
between the grounding-line depth (-600 m, the notebook's `z_g` and the lower
end of every depth sweep in the notebook) and the surface. -/
def ValidInput (S z_b : ℝ) : Prop := 0 < S ∧ -600 ≤ z_b ∧ z_b ≤ 0

end BoxModel

namespace BoxModel

/-! ### Helper lemmas about the iteration loops -/

/-- The plume state carried by `boxmodel`'s loop coincides with `plumeState`. -/
theorem boxLoop_S_T (S_a T_a Q_g z_b : ℝ) (j : ℕ) :
    (boxLoop S_a T_a Q_g z_b j).S = (plumeState S_a T_a Q_g z_b j).1 ∧
    (boxLoop S_a T_a Q_g z_b j).T = (plumeState S_a T_a Q_g z_b j).2 := by
  induction j with
  | zero => exact ⟨rfl, rfl⟩
  | succ j ih =>
    refine ⟨?_, ?_⟩ <;> simp only [boxLoop, plumeState, ih.1, ih.2]

/-- Selecting from the freshly allocated arrays gives `np.full(N, nan)`. -/
theorem initArrays_sel (q : Quantity) : initArrays.sel q = List.replicate N none := by
  cases q <;> rfl

/-- Selecting from the arrays after the filling block of iteration `i`. -/
theorem writeArrays_sel (arrs : BoxArrays) (i : ℕ) (r : IterVals) (q : Quantity) :
    (writeArrays arrs i r).sel q = (arrs.sel q).set i (some (r.select q)) := by
  cases q <;> rfl

/-- One step of `boxmodel`'s loop writes iteration `j`'s values at index `j`. -/
theorem boxLoop_succ_sel (S_a T_a Q_g z_b : ℝ) (q : Quantity) (j : ℕ) :
    (boxLoop S_a T_a Q_g z_b (j + 1)).arrs.sel q =
      ((boxLoop S_a T_a Q_g z_b j).arrs.sel q).set j
        (some ((iterVals S_a T_a Q_g z_b j).select q)) := by
  have hS := (boxLoop_S_T S_a T_a Q_g z_b j).1
  have hT := (boxLoop_S_T S_a T_a Q_g z_b j).2
  show (writeArrays (boxLoop S_a T_a Q_g z_b j).arrs j
      (plumeStep S_a T_a Q_g z_b (boxLoop S_a T_a Q_g z_b j).S
        (boxLoop S_a T_a Q_g z_b j).T)).sel q = _
  rw [writeArrays_sel, hS, hT]
  rfl

/-- Every array carried by `boxmodel`'s loop keeps its allocated length `N`. -/
theorem boxLoop_length (S_a T_a Q_g z_b : ℝ) (q : Quantity) (j : ℕ) :
    ((boxLoop S_a T_a Q_g z_b j).arrs.sel q).length = N := by
  induction j with
  | zero => rw [show (boxLoop S_a T_a Q_g z_b 0).arrs = initArrays from rfl,
      initArrays_sel]; exact List.length_replicate N none
  | succ j ih => rw [boxLoop_succ_sel, List.length_set]; exact ih

/-- After `j ≤ N` iterations of `boxmodel`'s loop, index `i` of each array
holds iteration `i`'s value if `i < j` and is still the `nan` it was
allocated with if `j ≤ i < N`. -/
theorem boxLoop_entry (S_a T_a Q_g z_b : ℝ) (q : Quantity) :
    ∀ j, j ≤ N →
      (∀ i, i < j → ((boxLoop S_a T_a Q_g z_b j).arrs.sel q)[i]? =
        some (some ((iterVals S_a T_a Q_g z_b i).select q))) ∧
      (∀ i, j ≤ i → i < N → ((boxLoop S_a T_a Q_g z_b j).arrs.sel q)[i]? = some none) := by
  intro j
  induction j with
  | zero =>
    intro _
    refine ⟨fun i hi => absurd hi (Nat.not_lt_zero i), fun i _ hi => ?_⟩
    rw [show (boxLoop S_a T_a Q_g z_b 0).arrs = initArrays from rfl, initArrays_sel]
    exact List.getElem?_replicate_of_lt hi
  | succ j ih =>
    intro hj
    have hjN : j < N := Nat.lt_of_succ_le hj
    have ihs := ih (Nat.le_of_lt hjN)
    have hlen : j < ((boxLoop S_a T_a Q_g z_b j).arrs.sel q).length := by
      rw [boxLoop_length]; exact hjN
    constructor
    · intro i hi
      rw [boxLoop_succ_sel]
      rcases Nat.lt_succ_iff_lt_or_eq.mp hi with hlt | heq
      · rw [List.getElem?_set_ne (Nat.ne_of_gt hlt)]
        exact ihs.1 i hlt
      · subst heq
        exact List.getElem?_set_self hlen
    · intro i hji hiN
      rw [boxLoop_succ_sel,
        List.getElem?_set_ne (Nat.ne_of_lt (Nat.lt_of_succ_le hji))]
      exact ihs.2 i (Nat.le_of_succ_le hji) hiN

/-- Each returned `boxmodel` array has length `N`. -/
theorem boxmodel_length (S_a T_a Q_g z_b : ℝ) (q : Quantity) :
    (boxmodel S_a T_a Q_g z_b q).length = N := by
  cases q with
  | v_b =>
    show ((boxLoop S_a T_a Q_g z_b N).arrs.v_b_n.map
      (Option.map (fun x => x * s_yr))).length = N
    rw [List.length_map]
    exact boxLoop_length S_a T_a Q_g z_b Quantity.v_b N
  | S => exact boxLoop_length S_a T_a Q_g z_b Quantity.S N
  | T => exact boxLoop_length S_a T_a Q_g z_b Quantity.T N
  | S_b => exact boxLoop_length S_a T_a Q_g z_b Quantity.S_b N
  | T_b => exact boxLoop_length S_a T_a Q_g z_b Quantity.T_b N
  | Q_m => exact boxLoop_length S_a T_a Q_g z_b Quantity.Q_m N
  | Q_out => exact boxLoop_length S_a T_a Q_g z_b Quantity.Q_out N

/-- Entry `i < N` of a returned `boxmodel` array is iteration `i`'s value
(scaled by `s_yr` for the melt-rate array). -/
theorem boxmodel_entry (S_a T_a Q_g z_b : ℝ) (q : Quantity) (i : ℕ) (hi : i < N) :
    (boxmodel S_a T_a Q_g z_b q)[i]? =
      some (some ((iterVals S_a T_a Q_g z_b i).final q)) := by
  have h := fun q' => (boxLoop_entry S_a T_a Q_g z_b q' N (Nat.le_refl N)).1 i hi
  cases q with
  | v_b =>
    show ((boxLoop S_a T_a Q_g z_b N).arrs.v_b_n.map
      (Option.map (fun x => x * s_yr)))[i]? = _
    rw [List.getElem?_map,
      show (boxLoop S_a T_a Q_g z_b N).arrs.v_b_n =
        (boxLoop S_a T_a Q_g z_b N).arrs.sel Quantity.v_b from rfl,
      h Quantity.v_b]
    rfl
  | S => exact h Quantity.S
  | T => exact h Quantity.T
  | S_b => exact h Quantity.S_b
  | T_b => exact h Quantity.T_b
  | Q_m => exact h Quantity.Q_m
  | Q_out => exact h Quantity.Q_out

/-- `sens_study` returns exactly the final-iteration values. -/
theorem sens_study_eq_final (S_a T_a Q_g z_b : ℝ) (q : Quantity) :
    sens_study S_a T_a Q_g z_b q = (iterVals S_a T_a Q_g z_b (N - 1)).final q := by
  cases q <;> rfl

/-- The selected quadratic-formula root is a root (generic algebra). -/
theorem quadratic_formula_root (a b c s : ℝ) (ha : a ≠ 0)
    (hs : s ^ 2 = b ^ 2 - 4 * a * c) :
    a * (-(b + s) / (2 * a)) ^ 2 + b * (-(b + s) / (2 * a)) + c = 0 := by
  have expand : a * (-(b + s) / (2 * a)) ^ 2 + b * (-(b + s) / (2 * a)) + c
      = (s ^ 2 - (b ^ 2 - 4 * a * c)) / (4 * a) := by
    field_simp
    ring
  rw [expand, hs, sub_self, zero_div]

/-- C2: for every input, the boundary temperature returned by `basalmelting`
equals `freeze` applied to the returned boundary salinity and the same depth. -/
theorem basalmelting_T_b_eq_freeze_S_b (S T z_b : ℝ) :
    (basalmelting S T z_b).T_b = freeze ((basalmelting S T z_b).S_b) z_b := rfl

/-- C6: `freeze` is affine in both arguments: it is literally
`y1 * S + y2 + y3 * z_b`, differences in salinity scale by `y1` and
differences in depth scale by `y3`. -/
theorem freeze_affine :
    (∀ S z_b : ℝ, freeze S z_b = y1 * S + y2 + y3 * z_b) ∧
    (∀ S₁ S₂ z : ℝ, freeze S₁ z - freeze S₂ z = y1 * (S₁ - S₂)) ∧
    (∀ S z₁ z₂ : ℝ, freeze S z₁ - freeze S z₂ = y3 * (z₁ - z₂)) := by
  refine ⟨fun S z_b => rfl, fun S₁ S₂ z => ?_, fun S z₁ z₂ => ?_⟩ <;>
    simp only [freeze] <;> ring

/-- C1: for every identical input quadruple, the last entry of each array
returned by `boxmodel` equals the corresponding scalar returned by
`sens_study` (wrapped in `some` since the arrays carry the `nan` option). -/
theorem boxmodel_sens_study_last_agree (S_a T_a Q_g z_b : ℝ) (q : Quantity) :
    (boxmodel S_a T_a Q_g z_b q).getLast? =
      some (some (sens_study S_a T_a Q_g z_b q)) := by
  rw [List.getLast?_eq_getElem?, boxmodel_length,
    boxmodel_entry S_a T_a Q_g z_b q (N - 1) (by decide),
    sens_study_eq_final]

/-- C7: `boxmodel` executes exactly `N` loop iterations with no early exit:
each returned array has length `N`; entry `i < N` holds the value computed by
iteration `i`; and before iteration `j` has run (loop state after `j`
iterations, any `j ≤ N`), every index `i` with `j ≤ i < N` is still the `nan`
the array was allocated with — so each index is written by exactly the one
iteration with the same number. -/
theorem boxmodel_exactly_N_iterations (S_a T_a Q_g z_b : ℝ) (q : Quantity) :
    (boxmodel S_a T_a Q_g z_b q).length = N ∧
    (∀ i, i < N → (boxmodel S_a T_a Q_g z_b q)[i]? =
      some (some ((iterVals S_a T_a Q_g z_b i).final q))) ∧
    (∀ j, j ≤ N → ∀ i, j ≤ i → i < N →
      ((boxLoop S_a T_a Q_g z_b j).arrs.sel q)[i]? = some none) :=
  ⟨boxmodel_length S_a T_a Q_g z_b q,
   fun i hi => boxmodel_entry S_a T_a Q_g z_b q i hi,
   fun j hj => (boxLoop_entry S_a T_a Q_g z_b q j hj).2⟩

/-- Witness for C7 at the notebook's present-scenario inputs. -/
theorem boxmodel_exactly_N_iterations_witness :
    (boxmodel 33 (-1) 70 (-300) Quantity.S).length = N ∧
    (boxmodel 33 (-1) 70 (-300) Quantity.S)[5]? =
      some (some ((iterVals 33 (-1) 70 (-300) 5).final Quantity.S)) ∧
    ((boxLoop 33 (-1) 70 (-300) 3).arrs.sel Quantity.S)[7]? = some none :=
  ⟨(boxmodel_exactly_N_iterations 33 (-1) 70 (-300) Quantity.S).1,
   (boxmodel_exactly_N_iterations 33 (-1) 70 (-300) Quantity.S).2.1 5 (by decide),
   (boxmodel_exactly_N_iterations 33 (-1) 70 (-300) Quantity.S).2.2 3 (by decide) 7
     (by decide) (by decide)⟩

/-- C9: the melt velocity recomputed inline in the loops of `boxmodel` and
`sens_study` equals `basalmelting(...)["v_b"] / s_yr` at the same pre-update
plume state; hence each iteration's recorded `v_b`, once scaled by `s_yr` as
both functions do on return, is exactly what calling `basalmelting` directly
at that iteration's state gives. -/
theorem inline_v_b_matches_basalmelting :
    (∀ S T z_b : ℝ,
      gamma_S * (S - (basalmelting S T z_b).S_b) / (basalmelting S T z_b).S_b =
        (basalmelting S T z_b).v_b / s_yr) ∧
    (∀ S_a T_a Q_g z_b : ℝ, ∀ i : ℕ,
      (iterVals S_a T_a Q_g z_b i).v_b * s_yr =
        (basalmelting (plumeState S_a T_a Q_g z_b i).1
          (plumeState S_a T_a Q_g z_b i).2 z_b).v_b) ∧
    (∀ S_a T_a Q_g z_b : ℝ,
      sens_study S_a T_a Q_g z_b Quantity.v_b =
        (basalmelting (plumeState S_a T_a Q_g z_b (N - 1)).1
          (plumeState S_a T_a Q_g z_b (N - 1)).2 z_b).v_b) := by
  refine ⟨fun S T z_b => ?_, fun S_a T_a Q_g z_b i => rfl, fun S_a T_a Q_g z_b => rfl⟩
  show gamma_S * (S - (basalmelting S T z_b).S_b) / (basalmelting S T z_b).S_b =
    gamma_S * (S - (basalmelting S T z_b).S_b) / (basalmelting S T z_b).S_b * s_yr / s_yr
  rw [mul_div_cancel_right₀ _ (by norm_num [s_yr] : (s_yr : ℝ) ≠ 0)]

/-- C10: the initial plume state of both loops is `S = 30`,
`T = freeze(30, z_b)`, independent of the ambient inputs, so the first
iteration's `basalmelting` call depends only on `z_b`. -/
theorem initial_plume_state_fixed (S_a T_a Q_g z_b S_a' T_a' Q_g' : ℝ) :
    plumeState S_a T_a Q_g z_b 0 = (30, freeze 30 z_b) ∧
    (boxLoop S_a T_a Q_g z_b 0).S = 30 ∧
    (boxLoop S_a T_a Q_g z_b 0).T = freeze 30 z_b ∧
    plumeState S_a T_a Q_g z_b 0 = plumeState S_a' T_a' Q_g' z_b 0 ∧
    (iterVals S_a T_a Q_g z_b 0).S_b = (basalmelting 30 (freeze 30 z_b) z_b).S_b ∧
    (iterVals S_a T_a Q_g z_b 0).T_b = (basalmelting 30 (freeze 30 z_b) z_b).T_b :=
  ⟨rfl, rfl, rfl, rfl, rfl, rfl⟩

/-- C3: the boundary salinity returned by `basalmelting` is the quadratic-formula
root `-(b + sqrt(b^2 - 4ac)) / (2a)` of the coefficients built in the function,
and whenever the discriminant is non-negative it is a genuine root of
`a*S_b^2 + b*S_b + c = 0`. -/
theorem basalmelting_S_b_quadratic_root (S T z_b : ℝ) :
    (basalmelting S T z_b).S_b =
      -(bm_b S T z_b + Real.sqrt (disc S T z_b)) / (2 * bm_a) ∧
    (0 ≤ disc S T z_b →
      bm_a * (basalmelting S T z_b).S_b ^ 2 +
        bm_b S T z_b * (basalmelting S T z_b).S_b + bm_c S z_b = 0) := by
  refine ⟨rfl, fun hd => ?_⟩
  have ha : bm_a ≠ 0 := by
    norm_num [bm_a, y1, gamma_T, gamma_S, St_T, St_S, u, c_i, c_p]
  have hs : Real.sqrt (disc S T z_b) ^ 2 = bm_b S T z_b ^ 2 - 4 * bm_a * bm_c S z_b := by
    rw [Real.sq_sqrt hd, disc]
  have hSb : (basalmelting S T z_b).S_b =
      -(bm_b S T z_b + Real.sqrt (disc S T z_b)) / (2 * bm_a) := rfl
  rw [hSb]
  exact quadratic_formula_root bm_a (bm_b S T z_b) (bm_c S z_b)
    (Real.sqrt (disc S T z_b)) ha hs

/-- Witness for C3 at `(S, T, z_b) = (0, 0, 0)`, where the `c` coefficient
vanishes and the discriminant is a square. -/
theorem basalmelting_S_b_quadratic_root_witness :
    0 ≤ disc 0 0 0 ∧
      bm_a * (basalmelting 0 0 0).S_b ^ 2 +
        bm_b 0 0 0 * (basalmelting 0 0 0).S_b + bm_c 0 0 = 0 := by
  have hc : bm_c 0 0 = 0 := by simp [bm_c]
  have hd : 0 ≤ disc 0 0 0 := by
    have h : disc 0 0 0 = bm_b 0 0 0 ^ 2 := by rw [disc, hc]; ring
    rw [h]
    positivity
  exact ⟨hd, (basalmelting_S_b_quadratic_root 0 0 0).2 hd⟩

/-- C5: each grid point of `variation`'s output is the `nan` no-data sentinel
exactly when the sampled ambient temperature is below the local freezing line
for the sampled salinity, and otherwise carries the selected `sens_study`
value; the transpose places the sample with salinity index `i` and temperature
index `k` at output position `(k, i)`. -/
theorem variation_freeze_mask (S_bot S_top T_bot T_top Q_g z_b : ℝ) (q : Quantity)
    (X : ℕ) (i k : Fin X) :
    (y1 * (S_bot + (i.val : ℝ) * (S_top - S_bot) / X) + y2 + y3 * z_b ≤
        T_bot + (k.val : ℝ) * (T_top - T_bot) / X →
      variation S_bot S_top T_bot T_top Q_g z_b q X k i =
        some (sens_study (S_bot + (i.val : ℝ) * (S_top - S_bot) / X)
          (T_bot + (k.val : ℝ) * (T_top - T_bot) / X) Q_g z_b q)) ∧
    (T_bot + (k.val : ℝ) * (T_top - T_bot) / X <
        y1 * (S_bot + (i.val : ℝ) * (S_top - S_bot) / X) + y2 + y3 * z_b →
      variation S_bot S_top T_bot T_top Q_g z_b q X k i = none) := by
  constructor
  · intro hc
    simp only [variation, Matrix.transpose_apply, Matrix.of_apply]
    rw [if_pos hc]
  · intro hc
    simp only [variation, Matrix.transpose_apply, Matrix.of_apply]
    rw [if_neg (not_le.mpr hc)]

/-- Witness for C5: on a 1-by-1 grid starting at `(S, T) = (30, -2)`, the
sampled temperature is below the freezing line and the output entry is the
no-data sentinel. -/
theorem variation_freeze_mask_witness :
    variation 30 35 (-2) 2 70 (-300) Quantity.v_b 1 ⟨0, Nat.one_pos⟩
      ⟨0, Nat.one_pos⟩ = none := by
  apply (variation_freeze_mask 30 35 (-2) 2 70 (-300) Quantity.v_b 1
    ⟨0, Nat.one_pos⟩ ⟨0, Nat.one_pos⟩).2
  norm_num [y1, y2, y3]

/-- The quadratic evaluated at the ambient salinity collapses to a simple
closed form: `a*S^2 + b*S + c = S * (gamma_T*(freeze(S,z_b) - T) - (gamma_S*c_i/c_p)*y2)`. -/
theorem quadratic_at_ambient (S T z_b : ℝ) :
    bm_a * S ^ 2 + bm_b S T z_b * S + bm_c S z_b =
      S * (gamma_T * (freeze S z_b - T) - gamma_S * c_i / c_p * y2) := by
  simp only [bm_a, bm_b, bm_c, freeze]
  ring

/-- C4: over the physically valid input domain, for ambient temperature at or
above the local freezing temperature, the discriminant computed inside
`basalmelting` is non-negative and the returned melt velocity is non-negative. -/
theorem basalmelting_v_b_nonneg (S T z_b : ℝ) (hv : ValidInput S z_b)
    (hT : freeze S z_b ≤ T) :
    0 ≤ disc S T z_b ∧ 0 ≤ (basalmelting S T z_b).v_b := by
  obtain ⟨hS, hz1, _hz2⟩ := hv
  have ha : bm_a < 0 := by
    norm_num [bm_a, y1, gamma_T, gamma_S, St_T, St_S, u, c_i, c_p]
  have hgS : (0 : ℝ) < gamma_S := by norm_num [gamma_S, St_S, u]
  have hgT : (0 : ℝ) < gamma_T := by norm_num [gamma_T, St_T, u]
  have hfac : 0 < c_i * (y3 * z_b - T_i) + L := by
    simp only [c_i, y3, T_i, L]
    linarith
  have hc : 0 < bm_c S z_b := by
    have h1 : 0 < gamma_S * S / c_p := by
      apply div_pos (mul_pos hgS hS)
      norm_num [c_p]
    exact mul_pos h1 hfac
  have hd : bm_b S T z_b ^ 2 < disc S T z_b := by
    simp only [disc]
    nlinarith [mul_pos (neg_pos.mpr ha) hc]
  have hd0 : 0 ≤ disc S T z_b := le_trans (sq_nonneg _) hd.le
  have hs0 : 0 ≤ Real.sqrt (disc S T z_b) := Real.sqrt_nonneg _
  have hs2 : Real.sqrt (disc S T z_b) ^ 2 = disc S T z_b := Real.sq_sqrt hd0
  have habs : |bm_b S T z_b| < Real.sqrt (disc S T z_b) := by
    have h := Real.sqrt_lt_sqrt (sq_nonneg (bm_b S T z_b)) hd
    rwa [Real.sqrt_sq_eq_abs] at h
  have hbs : 0 < bm_b S T z_b + Real.sqrt (disc S T z_b) := by
    have h := neg_abs_le (bm_b S T z_b)
    linarith
  have hSb_eq : (basalmelting S T z_b).S_b =
      -(bm_b S T z_b + Real.sqrt (disc S T z_b)) / (2 * bm_a) := rfl
  have hSb_pos : 0 < (basalmelting S T z_b).S_b := by
    rw [hSb_eq]
    apply div_pos_of_neg_of_neg
    · linarith
    · linarith
  have hq : bm_a * S ^ 2 + bm_b S T z_b * S + bm_c S z_b ≤ 0 := by
    rw [quadratic_at_ambient]
    have hk : (0 : ℝ) < gamma_S * c_i / c_p * y2 := by
      norm_num [gamma_S, St_S, u, c_i, c_p, y2]
    have h1 : gamma_T * (freeze S z_b - T) ≤ 0 :=
      mul_nonpos_of_nonneg_of_nonpos hgT.le (by linarith)
    have h2 : gamma_T * (freeze S z_b - T) - gamma_S * c_i / c_p * y2 ≤ 0 := by
      linarith
    exact mul_nonpos_of_nonneg_of_nonpos hS.le h2
  have ht2 : disc S T z_b ≤ (-(2 * bm_a * S + bm_b S T z_b)) ^ 2 := by
    have hexp : (-(2 * bm_a * S + bm_b S T z_b)) ^ 2 - disc S T z_b =
        4 * (bm_a * (bm_a * S ^ 2 + bm_b S T z_b * S + bm_c S z_b)) := by
      simp only [disc]
      ring
    have hmul : 0 ≤ bm_a * (bm_a * S ^ 2 + bm_b S T z_b * S + bm_c S z_b) := by
      nlinarith [mul_nonneg (neg_nonneg.mpr ha.le) (neg_nonneg.mpr hq)]
    linarith
  have ht0 : 0 ≤ -(2 * bm_a * S + bm_b S T z_b) := by
    by_contra hneg
    push_neg at hneg
    have h1 : 0 < 2 * bm_a * S + bm_b S T z_b := by linarith
    have h2 : 0 < -bm_a * S := mul_pos (neg_pos.mpr ha) hS
    have h3 : 0 < bm_b S T z_b + bm_a * S := by linarith
    have h4 : bm_b S T z_b ^ 2 - (-(2 * bm_a * S + bm_b S T z_b)) ^ 2 =
        -(4 * bm_a * S) * (bm_b S T z_b + bm_a * S) := by ring
    have h5 : 0 < -(4 * bm_a * S) * (bm_b S T z_b + bm_a * S) :=
      mul_pos (by linarith) h3
    linarith
  have hst : Real.sqrt (disc S T z_b) ≤ -(2 * bm_a * S + bm_b S T z_b) := by
    have h := Real.sqrt_le_sqrt ht2
    rwa [Real.sqrt_sq ht0] at h
  have hSSb : 0 ≤ S - (basalmelting S T z_b).S_b := by
    rw [hSb_eq]
    have hrw : S - -(bm_b S T z_b + Real.sqrt (disc S T z_b)) / (2 * bm_a) =
        (2 * bm_a * S + bm_b S T z_b + Real.sqrt (disc S T z_b)) / (2 * bm_a) := by
      field_simp [ha.ne]
      ring
    rw [hrw]
    refine div_nonneg_iff.mpr (Or.inr ⟨by linarith, by linarith⟩)
  refine ⟨hd0, ?_⟩
  have hvb : (basalmelting S T z_b).v_b =
      gamma_S * (S - (basalmelting S T z_b).S_b) / (basalmelting S T z_b).S_b *
        s_yr := rfl
  rw [hvb]
  have hfrac : 0 ≤ gamma_S * (S - (basalmelting S T z_b).S_b) /
      (basalmelting S T z_b).S_b :=
    div_nonneg (mul_nonneg hgS.le hSSb) hSb_pos.le
  have hyr : (0 : ℝ) ≤ s_yr := by norm_num [s_yr]
  exact mul_nonneg hfrac hyr

/-- Witness for C4 at `(S, T, z_b) = (30, 0, -300)`: a valid ambient state
with temperature above the local freezing point. -/
theorem basalmelting_v_b_nonneg_witness :
    (ValidInput 30 (-300) ∧ freeze 30 (-300) ≤ 0) ∧
      0 ≤ disc 30 0 (-300) ∧ 0 ≤ (basalmelting 30 0 (-300)).v_b := by
  have h1 : ValidInput 30 (-300) := by norm_num [ValidInput]
  have h2 : freeze 30 (-300) ≤ 0 := by norm_num [freeze, y1, y2, y3]
  exact ⟨⟨h1, h2⟩, basalmelting_v_b_nonneg 30 0 (-300) h1 h2⟩

end BoxModel
